import Mathlib

/-!
Shallow embedding of the grid-simulation core of the
SMART_ENERGY_MANAGEMENT_SYSTEM repository (directory `grid_simulation/`).

Python floats are modelled as rationals (`ℚ`), so every arithmetic law we
prove holds exactly; "within floating-point tolerance" claims become exact
equalities.  Python exceptions (`ZeroDivisionError`, `KeyError`, `ValueError`)
are modelled with `Except`/`Option` results.  MQTT publishing, sensor noise
and matplotlib visualisation are I/O-only side effects with no influence on
the numeric state and are not modelled.
-/

namespace GridSim

/-- Python runtime exceptions that the core can raise. -/
inductive PyErr where
  | zeroDivision : PyErr
  | keyError : PyErr
  deriving DecidableEq, Repr

/-- A simulated `datetime`: only the fields the core reads (month for the
seasonal tariff, hour/minute for the time-of-day tariff and the demand /
shift schedules).  `datetime` guarantees `1 ≤ month ≤ 12`, `hour < 24`,
`minute < 60`; under those bounds the zero-padded string comparison used by
`CostCalculator._get_time_multiplier` coincides with comparison of
`60*hour + minute`. -/
structure SimTime where
  month : ℕ
  hour : ℕ
  minute : ℕ
  deriving DecidableEq, Repr

/-- Minute of the day encoded by the `f"{hour:02d}:{minute:02d}"` string. -/
def SimTime.minutesOfDay (t : SimTime) : ℕ := 60 * t.hour + t.minute

/-- Python's `round(x, 2)` (round half to even at two decimals), on `ℚ`. -/
def round2 (q : ℚ) : ℚ :=
  let x : ℚ := q * 100
  let n : ℤ := ⌊x⌋
  let f : ℚ := x - n
  let r : ℤ :=
    if f < 1/2 then n
    else if 1/2 < f then n + 1
    else if n % 2 = 0 then n else n + 1
  (r : ℚ) / 100

/-! ## CostCalculator (`cost_calculator.py`)

The repository ships no `cost_config.json`, so `_load_cost_config` falls back
to `_get_default_config`; the rates below are that default table. -/

/-- `CostCalculator._get_time_multiplier`: peak 18:00–22:00 (inclusive, the
string comparison `"18:00" <= s <= "22:00"`) ↦ 1.5; off-peak `s ≥ "22:00"`
or `s ≤ "06:00"` ↦ 0.7; otherwise 1.0. -/
def timeMultiplier (t : SimTime) : ℚ :=
  if 18 * 60 ≤ t.minutesOfDay ∧ t.minutesOfDay ≤ 22 * 60 then 3/2
  else if 22 * 60 ≤ t.minutesOfDay ∨ t.minutesOfDay ≤ 6 * 60 then 7/10
  else 1

/-- `CostCalculator._get_seasonal_multiplier`: April–September ↦ 1.2,
October–March ↦ 0.9. -/
def seasonalMultiplier (t : SimTime) : ℚ :=
  if 4 ≤ t.month ∧ t.month ≤ 9 then 6/5 else 9/10

/-- `costs.grid_operations` lookup by the key
`f"{operation_type}_cost_per_kwh"`; `none` models a Python `KeyError`. -/
def gridOperationsRate (key : String) : Option ℚ :=
  if key = "transmission_cost_per_kwh" then some (4/5)
  else if key = "distribution_cost_per_kwh" then some (6/5)
  else if key = "substation_cost_per_kwh" then some (3/10)
  else none

/-- `costs.consumer_operations` lookup by the key
`f"{consumer_type}_consumption_cost_per_kwh"`; `none` models a `KeyError`.
(The default table's EV entry is spelled `ev_charging_cost_per_kwh`, which no
`f"{...}_consumption_cost_per_kwh"` key ever matches.) -/
def consumerOperationsRate (key : String) : Option ℚ :=
  if key = "house_consumption_cost_per_kwh" then some (15/2)
  else if key = "industry_consumption_cost_per_kwh" then some (34/5)
  else if key = "ev_charging_cost_per_kwh" then some (17/2)
  else none

/-- `total_cost_inr` of `calculate_battery_charging_cost` (base 6.50). -/
def batteryChargingCostTotal (energyKwh : ℚ) (t : SimTime) : ℚ :=
  round2 (energyKwh * (13/2 * (timeMultiplier t * seasonalMultiplier t)))

/-- `total_cost_inr` of `calculate_battery_discharging_cost` (base 0.50). -/
def batteryDischargingCostTotal (energyKwh : ℚ) (t : SimTime) : ℚ :=
  round2 (energyKwh * (1/2 * (timeMultiplier t * seasonalMultiplier t)))

/-- `total_cost_inr` of `calculate_battery_storage_cost` (base 0.10 per
kWh·hour). -/
def batteryStorageCostTotal (energyKwh durationH : ℚ) (t : SimTime) : ℚ :=
  round2 (energyKwh * durationH * (1/10 * (timeMultiplier t * seasonalMultiplier t)))

/-- `costs.generation` lookup by the key
`f"{generation_type}_generation_cost_per_kwh"`; `none` models a `KeyError`.
(The default table's external-grid entry is spelled
`external_grid_cost_per_kwh`, which the constructed
`external_grid_generation_cost_per_kwh` key never matches.) -/
def generationRate (key : String) : Option ℚ :=
  if key = "solar_generation_cost_per_kwh" then some (5/2)
  else if key = "wind_generation_cost_per_kwh" then some (16/5)
  else if key = "external_grid_cost_per_kwh" then some 8
  else none

/-- `total_cost_inr` of `calculate_generation_cost`; `none` when the
`f"{generation_type}_generation_cost_per_kwh"` key is absent (`KeyError`). -/
def generationCostTotal (energyKwh : ℚ) (generationType : String) (t : SimTime) :
    Option ℚ :=
  (generationRate (generationType ++ "_generation_cost_per_kwh")).map
    (fun base => round2 (energyKwh * (base * (timeMultiplier t * seasonalMultiplier t))))

/-- `calculate_external_grid_cost = calculate_generation_cost(·, "external_grid")`. -/
def externalGridCostTotal (energyKwh : ℚ) (t : SimTime) : Option ℚ :=
  generationCostTotal energyKwh "external_grid" t

/-- `total_cost_inr` of `calculate_grid_operation_cost`; `none` when the
`f"{operation_type}_cost_per_kwh"` key is absent (Python `KeyError`). -/
def gridOperationCostTotal (energyKwh : ℚ) (operationType : String) (t : SimTime) :
    Option ℚ :=
  (gridOperationsRate (operationType ++ "_cost_per_kwh")).map
    (fun base => round2 (energyKwh * (base * (timeMultiplier t * seasonalMultiplier t))))

/-- `total_cost_inr` of `calculate_consumer_cost`; `none` when the
`f"{consumer_type}_consumption_cost_per_kwh"` key is absent (`KeyError`). -/
def consumerCostTotal (energyKwh : ℚ) (consumerType : String) (t : SimTime) :
    Option ℚ :=
  (consumerOperationsRate (consumerType ++ "_consumption_cost_per_kwh")).map
    (fun base => round2 (energyKwh * (base * (timeMultiplier t * seasonalMultiplier t))))

/-! ## BaseBattery (`batteries/battery_base.py`) -/

/-- Battery operating mode (`self.mode`). -/
inductive BatteryMode where
  | idle | charging | discharging
  deriving DecidableEq, Repr

/-- State of `BaseBattery` (configuration and mutable fields; the MQTT
client, sensor collector and `simulation_time` bookkeeping are omitted). -/
structure Battery where
  capacity_kwh : ℚ
  rated_voltage : ℚ
  max_charge_power_kw : ℚ
  max_discharge_power_kw : ℚ
  charge_efficiency : ℚ
  discharge_efficiency : ℚ
  soc : ℚ
  soh : ℚ
  voltage : ℚ
  current : ℚ
  power : ℚ
  temperature : ℚ
  internal_resistance : ℚ
  remaining_capacity : ℚ
  cycle_count : ℕ
  mode : BatteryMode
  total_charging_cost : ℚ
  total_discharging_cost : ℚ
  total_storage_cost : ℚ
  current_operation_cost : ℚ
  deriving DecidableEq, Repr

namespace Battery

/-- `BaseBattery.__init__` with explicit max powers
(`max_charge_power_kw if max_charge_power_kw else rated_power_kw`, truthiness
collapsing `None`/`0` to `rated_power_kw`, is resolved by the caller). -/
def init (capacity_kwh rated_voltage max_charge max_discharge
    charge_eff discharge_eff : ℚ) : Battery :=
  { capacity_kwh := capacity_kwh
    rated_voltage := rated_voltage
    max_charge_power_kw := max_charge
    max_discharge_power_kw := max_discharge
    charge_efficiency := charge_eff
    discharge_efficiency := discharge_eff
    soc := 100
    soh := 100
    voltage := rated_voltage
    current := 0
    power := 0
    temperature := 25
    internal_resistance := 1/20
    remaining_capacity := capacity_kwh
    cycle_count := 0
    mode := .idle
    total_charging_cost := 0
    total_discharging_cost := 0
    total_storage_cost := 0
    current_operation_cost := 0 }

/-- `BaseBattery._update_operating_conditions`. -/
def updateOperatingConditions (b : Battery) (power_kw duration_h : ℚ)
    (charging : Bool) : Battery :=
  let current := (|power_kw| * 1000) / max b.voltage (1/1000000)
  let heat_generated := current ^ 2 * b.internal_resistance * duration_h / 3600
  let temperature := b.temperature + (1/100) * heat_generated
  let voltage0 :=
    if charging then b.rated_voltage + current * b.internal_resistance
    else b.rated_voltage - current * b.internal_resistance
  let voltage := if voltage0 < 0 then 0 else voltage0
  let soh0 := b.soh - (1/10000) * |power_kw| * duration_h
  let soh := if soh0 < 0 then 0 else soh0
  { b with current := current, temperature := temperature,
           voltage := voltage, soh := soh }

/-- `BaseBattery.charge`.  Division by `capacity_kwh` follows the source
(`capacity_kwh > 0` in every assembled battery; `ℚ` totalises `x/0 = 0`). -/
def charge (b : Battery) (power_kw duration_h : ℚ) (t : SimTime) : Battery :=
  let p := if power_kw > b.max_charge_power_kw then b.max_charge_power_kw else power_kw
  let energy_added := p * duration_h * b.charge_efficiency
  let remaining := min b.capacity_kwh (b.remaining_capacity + energy_added)
  let cost := batteryChargingCostTotal energy_added t
  let b1 :=
    { b with remaining_capacity := remaining
             soc := remaining / b.capacity_kwh * 100
             mode := .charging
             power := p
             current_operation_cost := cost
             total_charging_cost := b.total_charging_cost + cost }
  b1.updateOperatingConditions p duration_h true

/-- `BaseBattery.discharge`.  Division by `discharge_efficiency` follows the
source (the efficiency is in `(0,1]` for every assembled battery). -/
def discharge (b : Battery) (power_kw duration_h : ℚ) (t : SimTime) : Battery :=
  let p := if power_kw > b.max_discharge_power_kw then b.max_discharge_power_kw else power_kw
  let energy_removed := p * duration_h / b.discharge_efficiency
  let remaining := max 0 (b.remaining_capacity - energy_removed)
  let cost := batteryDischargingCostTotal energy_removed t
  let b1 :=
    { b with remaining_capacity := remaining
             soc := remaining / b.capacity_kwh * 100
             mode := .discharging
             power := -p
             cycle_count := b.cycle_count + (if remaining = 0 then 1 else 0)
             current_operation_cost := cost
             total_discharging_cost := b.total_discharging_cost + cost }
  b1.updateOperatingConditions p duration_h false

/-- `BaseBattery.calculate_storage_cost` (state part: cost accumulators). -/
def calculateStorageCost (b : Battery) (duration_h : ℚ) (t : SimTime) : Battery :=
  if b.remaining_capacity > 0 then
    let cost := batteryStorageCostTotal b.remaining_capacity duration_h t
    { b with current_operation_cost := cost
             total_storage_cost := b.total_storage_cost + cost }
  else b

end Battery

/-! ## ConsumerBase and subclasses (`consumers/`)

Demand functions are first-class callables in the source; they are embedded
as `SimTime → ℚ` fields.  `ConsumerBase.get_demand` can raise:
`self.current = (self.power * 1000) / self.voltage` is a `ZeroDivisionError`
when `voltage == 0`, and the consumer-tariff lookup is a `KeyError` when
`consumer_type` has no `..._consumption_cost_per_kwh` entry. -/

/-- State of `ConsumerBase` (MQTT/sensor plumbing omitted; the `id` slot is
telemetry-only and omitted — note that several subclasses pass a number into
it positionally). -/
structure Consumer where
  calculate_demand : SimTime → ℚ
  efficiency : ℚ
  voltage : ℚ
  current : ℚ
  power : ℚ
  consumer_type : String
  total_consumption_cost : ℚ
  current_operation_cost : ℚ

namespace Consumer

/-- `ConsumerBase.__init__`, parameters in source positional order after
`demand_function` and `id`: `efficiency`, `voltage`, `current`, `power`
(defaults 1.0, 230, 0.0, 0.0; `consumer_type` starts as "unknown"). -/
def init (demand_function : SimTime → ℚ) (efficiency voltage current power : ℚ) :
    Consumer :=
  { calculate_demand := demand_function
    efficiency := efficiency
    voltage := voltage
    current := current
    power := power
    consumer_type := "unknown"
    total_consumption_cost := 0
    current_operation_cost := 0 }

/-- `ConsumerBase.get_demand`: returns the net demand and the mutated
consumer, or the Python exception raised. -/
def getDemand (c : Consumer) (t : SimTime) : Except PyErr (ℚ × Consumer) := do
  let demand_kw := c.calculate_demand t
  let net_demand := if c.efficiency > 0 then demand_kw / c.efficiency else demand_kw
  if c.voltage = 0 then throw .zeroDivision
  let current := net_demand * 1000 / c.voltage
  let c1 := { c with power := net_demand, current := current }
  if net_demand > 0 then
    match consumerCostTotal net_demand c.consumer_type t with
    | none => throw .keyError
    | some cost =>
        pure (net_demand,
          { c1 with current_operation_cost := cost
                    total_consumption_cost := c1.total_consumption_cost + cost })
  else
    pure (net_demand, c1)

end Consumer

/-- `House` state; `appliances` is kept as the list of rated powers
(`sum(self.appliances.values())`). -/
structure House where
  base : Consumer
  appliances : List ℚ

/-- `House.__init__` calls
`super().__init__(demand_function, efficiency, voltage, device_id=id)`: only
`device_id` is keyword-aligned, the rest is positional against
`ConsumerBase.__init__(self, demand_function, id, efficiency, voltage, ...)`,
so the base consumer receives `id := efficiency`, `efficiency := voltage`,
and the default `voltage = 230`; afterwards it sets
`consumer_type = "house"`. -/
def House.init (demand_function : SimTime → ℚ) (appliances : List ℚ)
    (efficiency voltage : ℚ) : House :=
  { base := { Consumer.init demand_function voltage 230 0 0 with
                consumer_type := "house" }
    appliances := appliances }

/-- `House.get_demand`: base demand plus appliance sum. -/
def House.getDemand (h : House) (t : SimTime) : Except PyErr (ℚ × House) := do
  let (base_demand, b1) ← h.base.getDemand t
  let total := base_demand + h.appliances.sum
  pure (total, { h with base := { b1 with power := total } })

/-- `Industry.__init__` calls
`super().__init__(demand_function, efficiency, voltage)` positionally, so the
base consumer receives `id := efficiency`, `efficiency := voltage`, and the
default `voltage = 230`; `consumer_type` stays "unknown". `machinery` is the
list of machine rated powers. -/
structure Industry where
  base : Consumer
  shift_hours : List (ℕ × ℕ)
  machinery : List ℚ

def Industry.init (demand_function : SimTime → ℚ)
    (shift_hours : List (ℕ × ℕ)) (machinery : List ℚ)
    (efficiency voltage : ℚ) : Industry :=
  { base := Consumer.init demand_function voltage 230 0 0
    shift_hours := shift_hours
    machinery := machinery }

/-- `Industry.get_demand`: base demand plus machinery when some shift
interval contains the current hour. -/
def Industry.getDemand (ind : Industry) (t : SimTime) :
    Except PyErr (ℚ × Industry) := do
  let (base_demand, b1) ← ind.base.getDemand t
  let active_shift := ind.shift_hours.any (fun se => se.1 ≤ t.hour ∧ t.hour < se.2)
  let machine_demand := if active_shift then ind.machinery.sum else 0
  let total := base_demand + machine_demand
  pure (total, { ind with base := { b1 with power := total } })

/-- `ElectricVehicle` as a consumer: `get_demand` is inherited unchanged from
`ConsumerBase`.  `ElectricVehicle.__init__` calls
`super().__init__(demand_function, efficiency, voltage, current, power)`
positionally against `ConsumerBase.__init__(self, demand_function, id,
efficiency, voltage, current, power, ...)`, so the base consumer receives
`id := efficiency`, `efficiency := voltage`, `voltage := current`,
`current := power`, `power := 0` (default). -/
def ElectricVehicle.initConsumer (demand_function : SimTime → ℚ)
    (efficiency voltage current power : ℚ) : Consumer :=
  Consumer.init demand_function voltage current power 0

/-- `EVChargingStation.__init__` calls
`super().__init__(demand_function, efficiency, voltage)` positionally, so the
base consumer receives `id := efficiency`, `efficiency := voltage`, and the
default `voltage = 230`; `consumer_type` stays "unknown". -/
structure ChargingStation where
  base : Consumer
  num_ports : ℕ
  max_power_kw : ℚ
  connected_evs : List Consumer

def ChargingStation.init (demand_function : SimTime → ℚ) (num_ports : ℕ)
    (max_power_kw : ℚ) (efficiency voltage : ℚ) : ChargingStation :=
  { base := Consumer.init demand_function voltage 230 0 0
    num_ports := num_ports
    max_power_kw := max_power_kw
    connected_evs := [] }

/-- Python's `sum(x.get_demand(t) for x in xs)`: fold a fallible demand call
over a list, summing the results, collecting the mutated devices, and
propagating the first exception. -/
def sumListE {α : Type} (f : α → Except PyErr (ℚ × α)) :
    List α → Except PyErr (ℚ × List α)
  | [] => pure (0, [])
  | c :: rest => do
      let (d, c') ← f c
      let (ds, rest') ← sumListE f rest
      pure (d + ds, c' :: rest')

/-- `sum(ev.get_demand(time) for ev in self.connected_evs)`. -/
def sumConsumerDemands (cs : List Consumer) (t : SimTime) :
    Except PyErr (ℚ × List Consumer) :=
  sumListE (fun c => c.getDemand t) cs

/-- `EVChargingStation.get_demand`: base demand plus the demand of every
connected EV, capped at `max_power_kw`. -/
def ChargingStation.getDemand (st : ChargingStation) (t : SimTime) :
    Except PyErr (ℚ × ChargingStation) := do
  let (base_demand, b1) ← st.base.getDemand t
  let (ev_demand, evs') ← sumConsumerDemands st.connected_evs t
  let total := min (base_demand + ev_demand) st.max_power_kw
  pure (total, { st with base := { b1 with power := total }, connected_evs := evs' })

/-! ## GridBase (`grid/grid_base.py`) -/

/-- State of `GridBase` (inverter / substation / transformer).
`power_in`/`power_out` are `Option ℚ`: `none` is the Python `None` "no data"
sentinel. -/
structure GridConditioner where
  efficiency : ℚ
  power_in : Option ℚ
  power_out : Option ℚ
  operation_type : String
  total_operation_cost : ℚ
  current_operation_cost : ℚ
  deriving Repr

namespace GridConditioner

/-- `GridBase.__init__`: raises `ValueError` unless `0 ≤ efficiency ≤ 1`
(`if not 0 <= efficiency <= 1: raise ValueError(...)`); `operation_type`
starts as "unknown" (only `Transformer` overwrites it, with
"transmission"). -/
def init (efficiency : ℚ) : Except String GridConditioner :=
  if ¬(0 ≤ efficiency ∧ efficiency ≤ 1) then
    throw "Efficiency must be between 0 and 1"
  else
    pure { efficiency := efficiency
           power_in := some 0
           power_out := some 0
           operation_type := "unknown"
           total_operation_cost := 0
           current_operation_cost := 0 }

/-- `GridBase.transfer_power`: the mutated component, paired with the raised
exception when the cost lookup hits a missing tariff key (the power fields
are already mutated at that point, matching Python's in-place updates before
the raise).  Returns no value in the error case. -/
def transferPower (g : GridConditioner) (input_power_kW : Option ℚ) (t : SimTime) :
    GridConditioner × Option PyErr :=
  match input_power_kW with
  | none =>
      ({ g with power_in := none, power_out := none, current_operation_cost := 0 }, none)
  | some x =>
      if x < 0 then
        ({ g with power_in := none, power_out := none, current_operation_cost := 0 }, none)
      else
        let g1 := { g with power_in := some x, power_out := some (x * g.efficiency) }
        if x > 0 then
          match gridOperationCostTotal x g.operation_type t with
          | none => (g1, some .keyError)
          | some cost =>
              ({ g1 with current_operation_cost := cost
                         total_operation_cost := g1.total_operation_cost + cost }, none)
        else (g1, none)

end GridConditioner

/-! ## Grid.simulate_step (`simulation.py`) — demand, storage and
external-grid phases -/

/-- Demand-summation phase of `Grid.simulate_step` (lines 305–309): houses,
then industries, then stations, then every EV connected at some station
(each EV's `get_demand` is called a second time there), summed into
`total_demand`; the first exception aborts the step. -/
def simulateStepDemandPhase (houses : List House) (industries : List Industry)
    (stations : List ChargingStation) (t : SimTime) : Except PyErr ℚ := do
  let (hs, _) ← sumListE (fun h => House.getDemand h t) houses
  let (is, _) ← sumListE (fun i => Industry.getDemand i t) industries
  let (ss, stations') ← sumListE (fun s => ChargingStation.getDemand s t) stations
  let evs := (stations'.map (fun s => s.connected_evs)).flatten
  let (es, _) ← sumListE (fun c => Consumer.getDemand c t) evs
  pure (hs + is + ss + es)

/-- One battery visit inside `Grid.simulate_step` (lines 333–343): charge on
surplus when `soc < 100`, discharge on shortfall when `soc > 0`, then (in all
cases) accrue the storage cost when `remaining_capacity > 0` — that final
guard lives inside `calculate_storage_cost` as well; the source checks it
twice, so applying `calculateStorageCost` unconditionally is exact. -/
def serviceBattery (duration_h : ℚ) (t : SimTime) (net : ℚ) (b : Battery) :
    ℚ × Battery :=
  let step :=
    if net > 0 ∧ b.soc < 100 then
      let charge_power :=
        min net (min b.max_charge_power_kw
          ((b.capacity_kwh - b.remaining_capacity) / duration_h))
      (net - charge_power, b.charge charge_power duration_h t)
    else if net < 0 ∧ b.soc > 0 then
      let discharge_power :=
        min (-net) (min b.max_discharge_power_kw (b.remaining_capacity / duration_h))
      (net + discharge_power, b.discharge discharge_power duration_h t)
    else
      (net, b)
  (step.1, step.2.calculateStorageCost duration_h t)

/-- The battery loop of `Grid.simulate_step`: visits `bess_list` in
registration order, threading `net_power` left to right. -/
def serviceBatteries (duration_h : ℚ) (t : SimTime) :
    ℚ → List Battery → ℚ × List Battery
  | net, [] => (net, [])
  | net, b :: bs =>
      let r := serviceBattery duration_h t net b
      let rest := serviceBatteries duration_h t r.1 bs
      (rest.1, r.2 :: rest.2)

/-- The external-grid cost accumulators of `Grid`. -/
structure ExternalGridAccount where
  total_external_grid_cost : ℚ
  current_external_grid_cost : ℚ
  deriving DecidableEq, Repr

/-- Lines 344–351 of `Grid.simulate_step`: on a still-negative net after the
battery loop, `calculate_external_grid_cost` is called on `|net|` *before*
either accumulator is assigned; if that call raises (missing tariff key) the
exception propagates with the accumulators untouched, otherwise the full
shortfall is billed. -/
def externalGridPhase (net : ℚ) (t : SimTime) (g : ExternalGridAccount) :
    ExternalGridAccount × Option PyErr :=
  if net < 0 then
    match externalGridCostTotal |net| t with
    | none => (g, some .keyError)
    | some cost =>
        ({ current_external_grid_cost := cost
           total_external_grid_cost := g.total_external_grid_cost + cost }, none)
  else (g, none)

/-- Lines 332–351 of `Grid.simulate_step`: compute `net`, drive every
battery in registration order, then run the external-grid branch on any
remaining shortfall. -/
def simulateStepNetPhase (total_supply total_demand duration_h : ℚ) (t : SimTime)
    (batteries : List Battery) (g : ExternalGridAccount) :
    ℚ × List Battery × ExternalGridAccount × Option PyErr :=
  let net := total_supply - total_demand
  let r := serviceBatteries duration_h t net batteries
  (r.1, r.2, externalGridPhase r.1 t g)

/-! ## DynamicEVManager (`simulation.py`, lines 168–198)

For the population invariant only EV identities matter, so EVs are
represented by their identifiers (`ℕ`); each station's `connected_evs` is the
list of identifiers it holds, together with its `num_ports` bound.  The
`random.random() < prob` draws and the `random.choice` station pick are
externalised as oracles: `choice e = some k` means EV `e` attempts to plug in
at station index `k` this tick (`random.choice` always yields an index below
`stations.length`; an out-of-range oracle value is a no-op), and `depart e`
means connected EV `e` draws a departure this tick. -/

namespace EVM

/-- An `EVChargingStation`, reduced to the fields `connect_ev` and the
departure scan read (`connected_evs`, `num_ports`). -/
structure Station where
  connected_evs : List ℕ
  num_ports : ℕ
  deriving DecidableEq, Repr

/-- `EVChargingStation.connect_ev`: append when a port is free, else refuse. -/
def connectEv (st : Station) (e : ℕ) : Station × Bool :=
  if st.connected_evs.length < st.num_ports then
    ({ st with connected_evs := st.connected_evs ++ [e] }, true)
  else (st, false)

/-- The mutable state of `DynamicEVManager` together with the stations it
drives. -/
structure ManagerState where
  available_evs : List ℕ
  connected_evs : List ℕ
  stations : List Station
  deriving DecidableEq, Repr

/-- The arrival branch body for one available EV `e`: pick the station, try
`connect_ev`; on success move `e` from `available_evs` to `connected_evs`
(`plug_in` toggles a flag on the EV object only). -/
def arrivalStep (choice : ℕ → Option ℕ) (s : ManagerState) (e : ℕ) : ManagerState :=
  match choice e with
  | none => s
  | some k =>
      match s.stations[k]? with
      | none => s
      | some st =>
          let r := connectEv st e
          if r.2 then
            { available_evs := s.available_evs.erase e
              connected_evs := s.connected_evs ++ [e]
              stations := s.stations.set k r.1 }
          else s

/-- Remove EV `e` from the first station whose `connected_evs` contains it
(the `for station in ...: if ev in station.connected_evs: ... break` scan);
`none` when no station holds it. -/
def removeFromStations (e : ℕ) : List Station → Option (List Station)
  | [] => none
  | st :: rest =>
      if e ∈ st.connected_evs then
        some ({ st with connected_evs := st.connected_evs.erase e } :: rest)
      else (removeFromStations e rest).map (st :: ·)

/-- The departure branch body for one connected EV `e`: when its draw fires
and a station holds it, remove it there and move it back to
`available_evs`. -/
def departureStep (depart : ℕ → Bool) (s : ManagerState) (e : ℕ) : ManagerState :=
  if depart e then
    match removeFromStations e s.stations with
    | none => s
    | some stations' =>
        { available_evs := s.available_evs ++ [e]
          connected_evs := s.connected_evs.erase e
          stations := stations' }
  else s

/-- `DynamicEVManager.simulate_arrivals_departures`: the arrival loop over a
snapshot (`list(self.available_evs)`) of the available pool, then the
departure loop over a snapshot of the (updated) connected pool. -/
def simulateArrivalsDepartures (choice : ℕ → Option ℕ) (depart : ℕ → Bool)
    (s : ManagerState) : ManagerState :=
  let s1 := s.available_evs.foldl (arrivalStep choice) s
  s1.connected_evs.foldl (departureStep depart) s1

/-- The EVPopulation invariant of the spec: the two pools are disjoint,
together they are exactly `all_evs`, and no station exceeds its ports. -/
def Invariant (all_evs : List ℕ) (s : ManagerState) : Prop :=
  s.available_evs.Disjoint s.connected_evs ∧
  (s.available_evs ++ s.connected_evs).Perm all_evs ∧
  ∀ st ∈ s.stations, st.connected_evs.length ≤ st.num_ports

end EVM

/-! ## Theorems -/

/-- The per-battery bounds of §8 of the spec, stated exactly: both SOC and
SOH lie in `[0,100]`, the remaining capacity lies in `[0, capacity]`, and
SOC is the remaining capacity expressed as a percentage. -/
def BatteryBounds (b : Battery) : Prop :=
  0 ≤ b.soc ∧ b.soc ≤ 100 ∧ 0 ≤ b.soh ∧ b.soh ≤ 100 ∧
  0 ≤ b.remaining_capacity ∧ b.remaining_capacity ≤ b.capacity_kwh ∧
  b.soc = b.remaining_capacity / b.capacity_kwh * 100

instance (b : Battery) : Decidable (BatteryBounds b) := by
  unfold BatteryBounds; infer_instance

/-- The configuration every assembled battery has: positive capacity,
non-negative power limits, non-negative charge efficiency and positive
discharge efficiency. -/
def BatteryConfigOK (b : Battery) : Prop :=
  0 < b.capacity_kwh ∧ 0 ≤ b.max_charge_power_kw ∧ 0 ≤ b.max_discharge_power_kw ∧
  0 ≤ b.charge_efficiency ∧ 0 < b.discharge_efficiency

instance (b : Battery) : Decidable (BatteryConfigOK b) := by
  unfold BatteryConfigOK; infer_instance

lemma socBoundsOfRem {cap rem : ℚ} (hcap : 0 < cap) (h0 : 0 ≤ rem) (h1 : rem ≤ cap) :
    0 ≤ rem / cap * 100 ∧ rem / cap * 100 ≤ 100 := by
  refine ⟨mul_nonneg (div_nonneg h0 hcap.le) (by norm_num), ?_⟩
  have h2 : rem / cap ≤ 1 := (div_le_one hcap).mpr h1
  calc rem / cap * 100 ≤ 1 * 100 := by
        exact mul_le_mul_of_nonneg_right h2 (by norm_num)
    _ = 100 := by norm_num

/-- `charge` leaves the configuration fields untouched. -/
lemma Battery.charge_capacity (b : Battery) (p d : ℚ) (t : SimTime) :
    (b.charge p d t).capacity_kwh = b.capacity_kwh := rfl

/-- `discharge` leaves the configuration fields untouched. -/
lemma Battery.discharge_capacity (b : Battery) (p d : ℚ) (t : SimTime) :
    (b.discharge p d t).capacity_kwh = b.capacity_kwh := rfl

/-- The energy bookkeeping of `charge`, read off the definition. -/
lemma Battery.charge_remaining (b : Battery) (p d : ℚ) (t : SimTime) :
    (b.charge p d t).remaining_capacity =
      min b.capacity_kwh (b.remaining_capacity +
        (if p > b.max_charge_power_kw then b.max_charge_power_kw else p) * d *
          b.charge_efficiency) := rfl

lemma Battery.charge_soc (b : Battery) (p d : ℚ) (t : SimTime) :
    (b.charge p d t).soc = (b.charge p d t).remaining_capacity / b.capacity_kwh * 100 :=
  rfl

lemma Battery.charge_soh (b : Battery) (p d : ℚ) (t : SimTime) :
    (b.charge p d t).soh =
      (let q := if p > b.max_charge_power_kw then b.max_charge_power_kw else p
       let s0 := b.soh - (1/10000) * |q| * d
       if s0 < 0 then 0 else s0) := rfl

/-- The energy bookkeeping of `discharge`, read off the definition. -/
lemma Battery.discharge_remaining (b : Battery) (p d : ℚ) (t : SimTime) :
    (b.discharge p d t).remaining_capacity =
      max 0 (b.remaining_capacity -
        (if p > b.max_discharge_power_kw then b.max_discharge_power_kw else p) * d /
          b.discharge_efficiency) := rfl

lemma Battery.discharge_soc (b : Battery) (p d : ℚ) (t : SimTime) :
    (b.discharge p d t).soc =
      (b.discharge p d t).remaining_capacity / b.capacity_kwh * 100 := rfl

lemma Battery.discharge_soh (b : Battery) (p d : ℚ) (t : SimTime) :
    (b.discharge p d t).soh =
      (let q := if p > b.max_discharge_power_kw then b.max_discharge_power_kw else p
       let s0 := b.soh - (1/10000) * |q| * d
       if s0 < 0 then 0 else s0) := rfl

lemma Battery.discharge_cycle_count (b : Battery) (p d : ℚ) (t : SimTime) :
    (b.discharge p d t).cycle_count =
      b.cycle_count +
        (if (b.discharge p d t).remaining_capacity = 0 then 1 else 0) := rfl

lemma sohAfterUpdateBounds {soh q d : ℚ} (h1 : soh ≤ 100) (hd : 0 ≤ d) :
    0 ≤ (if soh - (1/10000) * |q| * d < 0 then 0 else soh - (1/10000) * |q| * d) ∧
      (if soh - (1/10000) * |q| * d < 0 then 0 else soh - (1/10000) * |q| * d) ≤ 100 := by
  have habs : 0 ≤ (1/10000 : ℚ) * |q| * d := by positivity
  split
  · exact ⟨le_refl 0, by norm_num⟩
  · exact ⟨by linarith, by linarith⟩

/-- C2: every `charge`/`discharge` call with non-negative power and duration,
from a battery whose configuration is as assembled and whose state satisfies
the documented bounds, yields a state that again satisfies
`0 ≤ SOC ≤ 100`, `0 ≤ SOH ≤ 100`, `0 ≤ remaining_capacity ≤ capacity_kwh`
and `SOC = remaining_capacity / capacity_kwh * 100` (exact on `ℚ`). -/
theorem battery_bounds_preserved (b : Battery) (power_kw duration_h : ℚ)
    (t : SimTime) (hcfg : BatteryConfigOK b) (hb : BatteryBounds b)
    (hp : 0 ≤ power_kw) (hd : 0 ≤ duration_h) :
    BatteryBounds (b.charge power_kw duration_h t) ∧
      BatteryBounds (b.discharge power_kw duration_h t) := by
  obtain ⟨hcap, hmaxc, hmaxd, hce, hde⟩ := hcfg
  obtain ⟨hsoc0, hsoc1, hsoh0, hsoh1, hrem0, hrem1, hrel⟩ := hb
  constructor
  · -- charge
    set q := if power_kw > b.max_charge_power_kw then b.max_charge_power_kw else power_kw
      with hq_def
    have hq0 : 0 ≤ q := by
      rw [hq_def]; split
      · exact hmaxc
      · exact hp
    have hrem0' : 0 ≤ (b.charge power_kw duration_h t).remaining_capacity := by
      rw [Battery.charge_remaining, ← hq_def]
      exact le_min hcap.le (by positivity)
    have hrem1' : (b.charge power_kw duration_h t).remaining_capacity ≤ b.capacity_kwh := by
      rw [Battery.charge_remaining]
      exact min_le_left _ _
    have hsoc := socBoundsOfRem hcap hrem0' hrem1'
    have hsoh := @sohAfterUpdateBounds b.soh q duration_h hsoh1 hd
    refine ⟨?_, ?_, ?_, ?_, hrem0', ?_, ?_⟩
    · rw [Battery.charge_soc]; exact hsoc.1
    · rw [Battery.charge_soc]; exact hsoc.2
    · rw [Battery.charge_soh, ← hq_def]; exact hsoh.1
    · rw [Battery.charge_soh, ← hq_def]; exact hsoh.2
    · rw [Battery.charge_capacity]; exact hrem1'
    · rw [Battery.charge_soc, Battery.charge_capacity]
  · -- discharge
    set q := if power_kw > b.max_discharge_power_kw then b.max_discharge_power_kw
        else power_kw with hq_def
    have hq0 : 0 ≤ q := by
      rw [hq_def]; split
      · exact hmaxd
      · exact hp
    have hrem0' : 0 ≤ (b.discharge power_kw duration_h t).remaining_capacity := by
      rw [Battery.discharge_remaining]
      exact le_max_left 0 _
    have hrem1' : (b.discharge power_kw duration_h t).remaining_capacity ≤
        b.capacity_kwh := by
      rw [Battery.discharge_remaining, ← hq_def]
      have he : 0 ≤ q * duration_h / b.discharge_efficiency := by positivity
      have : b.remaining_capacity - q * duration_h / b.discharge_efficiency ≤
          b.capacity_kwh := by linarith
      exact max_le hcap.le this
    have hsoc := socBoundsOfRem hcap hrem0' hrem1'
    have hsoh := @sohAfterUpdateBounds b.soh q duration_h hsoh1 hd
    refine ⟨?_, ?_, ?_, ?_, hrem0', ?_, ?_⟩
    · rw [Battery.discharge_soc]; exact hsoc.1
    · rw [Battery.discharge_soc]; exact hsoc.2
    · rw [Battery.discharge_soh, ← hq_def]; exact hsoh.1
    · rw [Battery.discharge_soh, ← hq_def]; exact hsoh.2
    · rw [Battery.discharge_capacity]; exact hrem1'
    · rw [Battery.discharge_soc, Battery.discharge_capacity]

/-- Witness for `battery_bounds_preserved` at a concrete battery. -/
theorem battery_bounds_preserved_witness :
    BatteryBounds ((Battery.init 100 400 50 50 (19/20) (19/20)).charge 10 1
        ⟨10, 12, 0⟩) ∧
      BatteryBounds ((Battery.init 100 400 50 50 (19/20) (19/20)).discharge 10 1
        ⟨10, 12, 0⟩) :=
  battery_bounds_preserved (Battery.init 100 400 50 50 (19/20) (19/20)) 10 1
    ⟨10, 12, 0⟩ (by norm_num [Battery.init, BatteryConfigOK])
    (by norm_num [Battery.init, BatteryBounds]) (by norm_num) (by norm_num)

lemma Battery.charge_max_discharge (b : Battery) (p d : ℚ) (t : SimTime) :
    (b.charge p d t).max_discharge_power_kw = b.max_discharge_power_kw := rfl

lemma Battery.discharge_max_charge (b : Battery) (p d : ℚ) (t : SimTime) :
    (b.discharge p d t).max_charge_power_kw = b.max_charge_power_kw := rfl

lemma Battery.discharge_max_discharge (b : Battery) (p d : ℚ) (t : SimTime) :
    (b.discharge p d t).max_discharge_power_kw = b.max_discharge_power_kw := rfl

lemma Battery.discharge_charge_eff (b : Battery) (p d : ℚ) (t : SimTime) :
    (b.discharge p d t).charge_efficiency = b.charge_efficiency := rfl

lemma Battery.discharge_discharge_eff (b : Battery) (p d : ℚ) (t : SimTime) :
    (b.discharge p d t).discharge_efficiency = b.discharge_efficiency := rfl

lemma Battery.charge_discharge_eff (b : Battery) (p d : ℚ) (t : SimTime) :
    (b.charge p d t).discharge_efficiency = b.discharge_efficiency := rfl

/-- C7: with unit charge and discharge efficiencies, charging an energy
`E = power_kw * duration_h` that fits in the remaining headroom and then
discharging with the same power and duration returns `remaining_capacity`
exactly to its pre-charge value. -/
theorem charge_discharge_round_trip (b : Battery) (power_kw duration_h : ℚ)
    (t t' : SimTime)
    (hce : b.charge_efficiency = 1) (hde : b.discharge_efficiency = 1)
    (hpc : power_kw ≤ b.max_charge_power_kw)
    (hpd : power_kw ≤ b.max_discharge_power_kw)
    (hrem0 : 0 ≤ b.remaining_capacity)
    (hfit : b.remaining_capacity + power_kw * duration_h ≤ b.capacity_kwh) :
    ((b.charge power_kw duration_h t).discharge power_kw duration_h t').remaining_capacity
      = b.remaining_capacity := by
  have hc : (b.charge power_kw duration_h t).remaining_capacity
      = b.remaining_capacity + power_kw * duration_h := by
    rw [Battery.charge_remaining, if_neg (not_lt.mpr hpc), hce, mul_one]
    exact min_eq_right hfit
  rw [Battery.discharge_remaining, Battery.charge_max_discharge,
    Battery.charge_discharge_eff, if_neg (not_lt.mpr hpd), hde, div_one, hc]
  have : b.remaining_capacity + power_kw * duration_h - power_kw * duration_h
      = b.remaining_capacity := by ring
  rw [this]
  exact max_eq_right hrem0

/-- Witness for `charge_discharge_round_trip` at a concrete battery. -/
theorem charge_discharge_round_trip_witness :
    (((Battery.init 100 400 50 50 1 1).discharge 60 1 ⟨10, 12, 0⟩).charge 20 2
          ⟨10, 13, 0⟩ |>.discharge 20 2 ⟨10, 13, 30⟩).remaining_capacity
      = ((Battery.init 100 400 50 50 1 1).discharge 60 1 ⟨10, 12, 0⟩).remaining_capacity :=
  charge_discharge_round_trip ((Battery.init 100 400 50 50 1 1).discharge 60 1 ⟨10, 12, 0⟩)
    20 2 ⟨10, 13, 0⟩ ⟨10, 13, 30⟩ rfl rfl
    (by norm_num [Battery.init, Battery.discharge_max_charge])
    (by norm_num [Battery.init, Battery.discharge_max_discharge])
    (by norm_num [Battery.init, Battery.discharge_remaining])
    (by norm_num [Battery.init, Battery.discharge_remaining, Battery.discharge_capacity])

/-- C8: a `discharge` call increments `cycle_count` by exactly one precisely
when the post-removal `remaining_capacity` is exactly `0`; any discharge
leaving `remaining_capacity > 0` leaves `cycle_count` unchanged. -/
theorem discharge_cycle_count_iff (b : Battery) (power_kw duration_h : ℚ)
    (t : SimTime) :
    ((b.discharge power_kw duration_h t).cycle_count = b.cycle_count + 1 ↔
        (b.discharge power_kw duration_h t).remaining_capacity = 0) ∧
      ((b.discharge power_kw duration_h t).remaining_capacity > 0 →
        (b.discharge power_kw duration_h t).cycle_count = b.cycle_count) := by
  constructor
  · rw [Battery.discharge_cycle_count]
    by_cases h : (b.discharge power_kw duration_h t).remaining_capacity = 0
    · simp [h]
    · simp [h]
  · intro h
    rw [Battery.discharge_cycle_count, if_neg (by linarith)]
    exact Nat.add_zero _

/-- Witness for `discharge_cycle_count_iff`: a discharge that drains the
battery to exactly zero bumps `cycle_count`. -/
theorem discharge_cycle_count_iff_witness :
    ((Battery.init 10 400 50 50 1 1).discharge 10 1 ⟨10, 12, 0⟩).cycle_count
      = (Battery.init 10 400 50 50 1 1).cycle_count + 1 :=
  (discharge_cycle_count_iff (Battery.init 10 400 50 50 1 1) 10 1 ⟨10, 12, 0⟩).1.mpr
    (by norm_num [Battery.init, Battery.discharge_remaining])

lemma Battery.charge_power_field (b : Battery) (p d : ℚ) (t : SimTime) :
    (b.charge p d t).power =
      (if p > b.max_charge_power_kw then b.max_charge_power_kw else p) := rfl

/-- C10: `charge` clamps only from above, so a negative `power_kw` is
accepted unchanged: the stored power is the raw request, the signed energy
`power_kw * duration_h * charge_efficiency` is negative, and
`remaining_capacity` strictly decreases by it — in particular SOC can leave
the documented `[0,100]` range, as the concrete final conjunct shows. -/
theorem charge_negative_power (b : Battery) (power_kw duration_h : ℚ) (t : SimTime)
    (hmaxc : 0 ≤ b.max_charge_power_kw) (hce : 0 < b.charge_efficiency)
    (hrem1 : b.remaining_capacity ≤ b.capacity_kwh)
    (hp : power_kw < 0) (hd : 0 < duration_h) :
    (b.charge power_kw duration_h t).power = power_kw ∧
      power_kw * duration_h * b.charge_efficiency < 0 ∧
      (b.charge power_kw duration_h t).remaining_capacity
        = b.remaining_capacity + power_kw * duration_h * b.charge_efficiency ∧
      (b.charge power_kw duration_h t).remaining_capacity < b.remaining_capacity ∧
      ((Battery.init 10 400 50 50 1 1).charge (-20) 1 t).soc < 0 := by
  have hnotgt : ¬ power_kw > b.max_charge_power_kw := not_lt.mpr (by linarith)
  have he : power_kw * duration_h * b.charge_efficiency < 0 := by
    have h1 : power_kw * duration_h < 0 := mul_neg_of_neg_of_pos hp hd
    exact mul_neg_of_neg_of_pos h1 hce
  have hrem : (b.charge power_kw duration_h t).remaining_capacity
      = b.remaining_capacity + power_kw * duration_h * b.charge_efficiency := by
    rw [Battery.charge_remaining, if_neg hnotgt]
    exact min_eq_right (by linarith)
  refine ⟨?_, he, hrem, ?_, ?_⟩
  · rw [Battery.charge_power_field, if_neg hnotgt]
  · rw [hrem]; linarith
  · have : ((Battery.init 10 400 50 50 1 1).charge (-20) 1 t).soc
        = ((Battery.init 10 400 50 50 1 1).charge (-20) 1 t).remaining_capacity
            / 10 * 100 := Battery.charge_soc _ _ _ _
    rw [this, Battery.charge_remaining]
    norm_num [Battery.init]

/-- Witness for `charge_negative_power` at a concrete battery. -/
theorem charge_negative_power_witness :
    ((Battery.init 10 400 50 50 1 1).charge (-20) 1 ⟨10, 12, 0⟩).remaining_capacity
      < (Battery.init 10 400 50 50 1 1).remaining_capacity :=
  (charge_negative_power (Battery.init 10 400 50 50 1 1) (-20) 1 ⟨10, 12, 0⟩
    (by norm_num [Battery.init]) (by norm_num [Battery.init])
    (by norm_num [Battery.init]) (by norm_num) (by norm_num)).2.2.2.1

/-- C6: `GridBase.__init__` succeeds exactly when `0 ≤ efficiency ≤ 1`, and
raises the configuration `ValueError` otherwise. -/
theorem grid_conditioner_init_iff (efficiency : ℚ) :
    (∃ g, GridConditioner.init efficiency = Except.ok g) ↔
      (0 ≤ efficiency ∧ efficiency ≤ 1) := by
  unfold GridConditioner.init
  constructor
  · intro h
    by_contra hc
    rw [if_pos hc] at h
    obtain ⟨g, hg⟩ := h
    exact Except.noConfusion hg
  · intro h
    rw [if_neg (not_not.mpr h)]
    exact ⟨_, rfl⟩

/-- Witness for `grid_conditioner_init_iff`: `0.95` is accepted, `1.5` and
`-0.1` raise. -/
theorem grid_conditioner_init_iff_witness :
    (∃ g, GridConditioner.init (19/20) = Except.ok g) ∧
      ¬(∃ g, GridConditioner.init (3/2) = Except.ok g) ∧
      ¬(∃ g, GridConditioner.init (-1/10) = Except.ok g) := by
  refine ⟨(grid_conditioner_init_iff (19/20)).mpr (by norm_num), ?_, ?_⟩
  · intro h
    have := (grid_conditioner_init_iff (3/2)).mp h
    norm_num at this
  · intro h
    have := (grid_conditioner_init_iff (-1/10)).mp h
    norm_num at this

/-- C5: `transfer_power` on a `None` or negative input sets both power
fields to the `None` sentinel and charges nothing for the call; on a
non-negative input it sets `power_in = input` and
`power_out = input * efficiency`, and any cost it charges is
`calculate_grid_operation_cost` applied to the input energy (never to
`power_out`). -/
theorem transfer_power_spec (g : GridConditioner) (t : SimTime) :
    ((g.transferPower none t).1.power_in = none ∧
      (g.transferPower none t).1.power_out = none ∧
      (g.transferPower none t).1.current_operation_cost = 0 ∧
      (g.transferPower none t).1.total_operation_cost = g.total_operation_cost) ∧
    (∀ x : ℚ, x < 0 →
      (g.transferPower (some x) t).1.power_in = none ∧
      (g.transferPower (some x) t).1.power_out = none ∧
      (g.transferPower (some x) t).1.current_operation_cost = 0 ∧
      (g.transferPower (some x) t).1.total_operation_cost = g.total_operation_cost) ∧
    (∀ x : ℚ, 0 ≤ x →
      (g.transferPower (some x) t).1.power_in = some x ∧
      (g.transferPower (some x) t).1.power_out = some (x * g.efficiency) ∧
      ((g.transferPower (some x) t).1.total_operation_cost = g.total_operation_cost ∨
        ∃ c, gridOperationCostTotal x g.operation_type t = some c ∧
          (g.transferPower (some x) t).1.total_operation_cost
            = g.total_operation_cost + c)) := by
  refine ⟨⟨rfl, rfl, rfl, rfl⟩, ?_, ?_⟩
  · intro x hx
    simp [GridConditioner.transferPower, if_pos hx]
  · intro x hx
    simp only [GridConditioner.transferPower, if_neg (not_lt.mpr hx)]
    by_cases hpos : x > 0
    · rw [if_pos hpos]
      cases hcost : gridOperationCostTotal x g.operation_type t with
      | none => exact ⟨rfl, rfl, Or.inl rfl⟩
      | some c => exact ⟨rfl, rfl, Or.inr ⟨c, rfl, rfl⟩⟩
    · rw [if_neg hpos]
      exact ⟨rfl, rfl, Or.inl rfl⟩

/-- Witness for `transfer_power_spec`: a conditioner with efficiency `0.95`
and input `100` yields `power_out = 95.0`. -/
theorem transfer_power_spec_witness :
    ((⟨19/20, some 0, some 0, "unknown", 0, 0⟩ : GridConditioner).transferPower
        (some 100) ⟨10, 12, 0⟩).1.power_out = some 95 := by
  have h := ((transfer_power_spec ⟨19/20, some 0, some 0, "unknown", 0, 0⟩
      ⟨10, 12, 0⟩).2.2 100 (by norm_num)).2.1
  rw [h]
  norm_num

/-- C3: the battery loop of `simulate_step` visits the registered batteries
in order (the head is serviced with the incoming net, the tail with the
updated net, and the serviced states come back in the same order), and each
visit behaves per the three cases: surplus with SOC < 100 charges with
`min(net, max_charge_power_kw, (capacity-remaining)/duration_h)` and
decrements net by that power; shortfall with SOC > 0 discharges with
`min(|net|, max_discharge_power_kw, remaining/duration_h)` and increments
net by that power; otherwise net is unchanged (the battery still accrues
the loop's storage cost). -/
theorem simulate_step_battery_loop (duration_h : ℚ) (t : SimTime) (net : ℚ)
    (b : Battery) (bs : List Battery) :
    (serviceBatteries duration_h t net (b :: bs)
      = ((serviceBatteries duration_h t (serviceBattery duration_h t net b).1 bs).1,
         (serviceBattery duration_h t net b).2
           :: (serviceBatteries duration_h t (serviceBattery duration_h t net b).1 bs).2)) ∧
    (net > 0 ∧ b.soc < 100 →
      serviceBattery duration_h t net b
        = (net - min net (min b.max_charge_power_kw
              ((b.capacity_kwh - b.remaining_capacity) / duration_h)),
           (b.charge (min net (min b.max_charge_power_kw
              ((b.capacity_kwh - b.remaining_capacity) / duration_h))) duration_h
             t).calculateStorageCost duration_h t)) ∧
    (net < 0 ∧ b.soc > 0 →
      serviceBattery duration_h t net b
        = (net + min (-net) (min b.max_discharge_power_kw
              (b.remaining_capacity / duration_h)),
           (b.discharge (min (-net) (min b.max_discharge_power_kw
              (b.remaining_capacity / duration_h))) duration_h
             t).calculateStorageCost duration_h t)) ∧
    (¬(net > 0 ∧ b.soc < 100) → ¬(net < 0 ∧ b.soc > 0) →
      serviceBattery duration_h t net b
        = (net, b.calculateStorageCost duration_h t)) := by
  refine ⟨rfl, ?_, ?_, ?_⟩
  · intro h
    unfold serviceBattery
    rw [if_pos h]
  · intro h
    unfold serviceBattery
    rw [if_neg (by rintro ⟨h1, _⟩; exact absurd h.1 (not_lt.mpr h1.le)), if_pos h]
  · intro h1 h2
    unfold serviceBattery
    rw [if_neg h1, if_neg h2]

/-- Witness for `simulate_step_battery_loop`: a half-full battery facing a
10 kW surplus absorbs all of it, leaving net 0. -/
theorem simulate_step_battery_loop_witness :
    (serviceBattery 1 ⟨10, 12, 0⟩ 10
        ((Battery.init 100 400 50 50 1 1).discharge 50 1 ⟨10, 11, 0⟩)).1 = 0 := by
  have h := (simulate_step_battery_loop 1 ⟨10, 12, 0⟩ 10
      ((Battery.init 100 400 50 50 1 1).discharge 50 1 ⟨10, 11, 0⟩) []).2.1
      (by constructor
          · norm_num
          · rw [Battery.discharge_soc, Battery.discharge_remaining]
            norm_num [Battery.init])
  rw [congrArg Prod.fst h]
  rw [Battery.discharge_max_charge, Battery.discharge_remaining,
    Battery.discharge_capacity]
  norm_num [Battery.init]

/-- C4 (refuted by the code): the shortfall is never billed.
`calculate_external_grid_cost` delegates to
`calculate_generation_cost(·, "external_grid")`, whose constructed key
`external_grid_generation_cost_per_kwh` is absent from the default generation
table (it only has `external_grid_cost_per_kwh`), so every shortfall tick
raises `KeyError` with both external-grid accumulators untouched; on a
non-negative post-servicing net the accumulators are likewise unchanged (and
nothing raises). -/
theorem external_grid_cost_key_error (total_supply total_demand duration_h : ℚ)
    (t : SimTime) (batteries : List Battery) (g : ExternalGridAccount) :
    (∀ energy : ℚ, externalGridCostTotal energy t = none) ∧
    ((serviceBatteries duration_h t (total_supply - total_demand) batteries).1 < 0 →
      (simulateStepNetPhase total_supply total_demand duration_h t batteries g).2.2
        = (g, some PyErr.keyError)) ∧
    (0 ≤ (serviceBatteries duration_h t (total_supply - total_demand) batteries).1 →
      (simulateStepNetPhase total_supply total_demand duration_h t batteries g).2.2
        = (g, none)) := by
  have hkey : ∀ energy : ℚ, externalGridCostTotal energy t = none := by
    intro energy
    rfl
  refine ⟨hkey, ?_, ?_⟩
  · intro h
    simp only [simulateStepNetPhase, externalGridPhase, if_pos h, hkey]
  · intro h
    simp only [simulateStepNetPhase, externalGridPhase, if_neg (not_lt.mpr h)]

/-- Witness for `external_grid_cost_key_error`: 0 kW supply, 50 kW demand,
one battery at SOC 0 — the tick raises `KeyError` and books nothing. -/
theorem external_grid_cost_key_error_witness :
    (simulateStepNetPhase 0 50 1 ⟨10, 12, 0⟩
        [⟨10, 400, 50, 50, 1, 1, 0, 100, 400, 0, 0, 25, 1/20, 0, 0, .idle, 0, 0, 0, 0⟩]
        ⟨0, 0⟩).2.2 = (⟨0, 0⟩, some PyErr.keyError) := by
  have hnet : (serviceBatteries 1 ⟨10, 12, 0⟩ ((0:ℚ) - 50)
      [(⟨10, 400, 50, 50, 1, 1, 0, 100, 400, 0, 0, 25, 1/20, 0, 0, .idle, 0, 0, 0,
        0⟩ : Battery)]).1 = -50 := by
    norm_num [serviceBatteries, serviceBattery, Battery.calculateStorageCost]
  exact (external_grid_cost_key_error 0 50 1 ⟨10, 12, 0⟩
      [⟨10, 400, 50, 50, 1, 1, 0, 100, 400, 0, 0, 25, 1/20, 0, 0, .idle, 0, 0, 0, 0⟩]
      ⟨0, 0⟩).2.1 (by rw [hnet]; norm_num)

lemma EVM.move_to_connected_perm {avail conn : List ℕ} {e : ℕ} (he : e ∈ avail) :
    (avail.erase e ++ (conn ++ [e])).Perm (avail ++ conn) := by
  have h1 : (conn ++ [e]).Perm (e :: conn) := List.perm_append_singleton e conn
  refine (List.Perm.append_left _ h1).trans ?_
  have h4 : avail.erase e ++ (e :: conn) = (avail.erase e ++ [e]) ++ conn := by simp
  rw [h4]
  exact (List.Perm.append_right conn (List.perm_append_singleton e _)).trans
    (List.Perm.append_right conn (List.perm_cons_erase he).symm)

lemma EVM.move_to_available_perm {avail conn : List ℕ} {e : ℕ} (he : e ∈ conn) :
    ((avail ++ [e]) ++ conn.erase e).Perm (avail ++ conn) := by
  have h4 : (avail ++ [e]) ++ conn.erase e = avail ++ (e :: conn.erase e) := by simp
  rw [h4]
  exact List.Perm.append_left avail (List.perm_cons_erase he).symm

lemma EVM.arrivalStep_inv {all : List ℕ} {s : EVM.ManagerState} {e : ℕ}
    (choice : ℕ → Option ℕ) (hall : all.Nodup) (hinv : EVM.Invariant all s)
    (he : e ∈ s.available_evs) :
    EVM.Invariant all (EVM.arrivalStep choice s e) ∧
      ∀ e' ∈ s.available_evs, e' ≠ e →
        e' ∈ (EVM.arrivalStep choice s e).available_evs := by
  obtain ⟨hdisj, hperm, hports⟩ := hinv
  cases hch : choice e with
  | none =>
      simp only [EVM.arrivalStep, hch]
      exact ⟨⟨hdisj, hperm, hports⟩, fun e' he' _ => he'⟩
  | some k =>
      cases hst : s.stations[k]? with
      | none =>
          simp only [EVM.arrivalStep, hch, hst]
          exact ⟨⟨hdisj, hperm, hports⟩, fun e' he' _ => he'⟩
      | some st =>
          by_cases hlen : st.connected_evs.length < st.num_ports
          · simp only [EVM.arrivalStep, hch, hst, EVM.connectEv, if_pos hlen]
            constructor
            · have hmove := @EVM.move_to_connected_perm s.available_evs s.connected_evs e he
              refine ⟨?_, hmove.trans hperm, ?_⟩
              · have hnodup : (s.available_evs ++ s.connected_evs).Nodup :=
                  hperm.symm.nodup hall
                exact List.disjoint_of_nodup_append (hmove.symm.nodup hnodup)
              · intro st' hst'
                rcases List.mem_or_eq_of_mem_set hst' with h | h
                · exact hports st' h
                · subst h
                  simpa using Nat.succ_le_of_lt hlen
            · intro e' he' hne
              exact (List.mem_erase_of_ne hne).mpr he'
          · simp only [EVM.arrivalStep, hch, hst, EVM.connectEv, if_neg hlen]
            exact ⟨⟨hdisj, hperm, hports⟩, fun e' he' _ => he'⟩

lemma EVM.foldl_arrivalStep_inv {all : List ℕ} (choice : ℕ → Option ℕ)
    (hall : all.Nodup) :
    ∀ (snap : List ℕ) (s : EVM.ManagerState), EVM.Invariant all s → snap.Nodup →
      (∀ e ∈ snap, e ∈ s.available_evs) →
      EVM.Invariant all (snap.foldl (EVM.arrivalStep choice) s)
  | [], _, hinv, _, _ => hinv
  | e :: rest, s, hinv, hnodup, hsub => by
      have hstep := EVM.arrivalStep_inv choice hall hinv (hsub e (List.mem_cons_self e rest))
      have hnc := List.nodup_cons.mp hnodup
      exact EVM.foldl_arrivalStep_inv choice hall rest _ hstep.1 hnc.2
        (fun e' he' =>
          hstep.2 e' (hsub e' (List.mem_cons_of_mem e he'))
            (fun heq => hnc.1 (heq ▸ he')))

lemma EVM.removeFromStations_ports {e : ℕ} :
    ∀ {l l' : List EVM.Station}, EVM.removeFromStations e l = some l' →
      (∀ st ∈ l, st.connected_evs.length ≤ st.num_ports) →
      ∀ st ∈ l', st.connected_evs.length ≤ st.num_ports
  | [], _, h, _ => by cases h
  | st :: rest, l', h, hb => by
      unfold EVM.removeFromStations at h
      by_cases hmem : e ∈ st.connected_evs
      · rw [if_pos hmem] at h
        cases h
        intro st' hst'
        rcases List.mem_cons.mp hst' with h' | h'
        · subst h'
          exact le_trans ((List.erase_sublist e st.connected_evs).length_le)
            (hb st (List.mem_cons_self st rest))
        · exact hb st' (List.mem_cons_of_mem st h')
      · rw [if_neg hmem] at h
        cases hrec : EVM.removeFromStations e rest with
        | none => rw [hrec] at h; cases h
        | some rest' =>
            rw [hrec] at h
            cases h
            intro st' hst'
            rcases List.mem_cons.mp hst' with h' | h'
            · subst h'
              exact hb st' (List.mem_cons_self st' rest)
            · exact EVM.removeFromStations_ports hrec
                (fun u hu => hb u (List.mem_cons_of_mem st hu)) st' h'

lemma EVM.departureStep_inv {all : List ℕ} {s : EVM.ManagerState} {e : ℕ}
    (depart : ℕ → Bool) (hall : all.Nodup) (hinv : EVM.Invariant all s)
    (he : e ∈ s.connected_evs) :
    EVM.Invariant all (EVM.departureStep depart s e) ∧
      ∀ e' ∈ s.connected_evs, e' ≠ e →
        e' ∈ (EVM.departureStep depart s e).connected_evs := by
  obtain ⟨hdisj, hperm, hports⟩ := hinv
  by_cases hd : depart e = true
  · cases hrm : EVM.removeFromStations e s.stations with
    | none =>
        simp only [EVM.departureStep, if_pos hd, hrm]
        exact ⟨⟨hdisj, hperm, hports⟩, fun e' he' _ => he'⟩
    | some stations' =>
        simp only [EVM.departureStep, if_pos hd, hrm]
        constructor
        · have hmove := @EVM.move_to_available_perm s.available_evs s.connected_evs e he
          refine ⟨?_, hmove.trans hperm, ?_⟩
          · have hnodup : (s.available_evs ++ s.connected_evs).Nodup :=
              hperm.symm.nodup hall
            exact List.disjoint_of_nodup_append (hmove.symm.nodup hnodup)
          · exact EVM.removeFromStations_ports hrm hports
        · intro e' he' hne
          exact (List.mem_erase_of_ne hne).mpr he'
  · simp only [EVM.departureStep, if_neg hd]
    exact ⟨⟨hdisj, hperm, hports⟩, fun e' he' _ => he'⟩

lemma EVM.foldl_departureStep_inv {all : List ℕ} (depart : ℕ → Bool)
    (hall : all.Nodup) :
    ∀ (snap : List ℕ) (s : EVM.ManagerState), EVM.Invariant all s → snap.Nodup →
      (∀ e ∈ snap, e ∈ s.connected_evs) →
      EVM.Invariant all (snap.foldl (EVM.departureStep depart) s)
  | [], _, hinv, _, _ => hinv
  | e :: rest, s, hinv, hnodup, hsub => by
      have hstep := EVM.departureStep_inv depart hall hinv
        (hsub e (List.mem_cons_self e rest))
      have hnc := List.nodup_cons.mp hnodup
      exact EVM.foldl_departureStep_inv depart hall rest _ hstep.1 hnc.2
        (fun e' he' =>
          hstep.2 e' (hsub e' (List.mem_cons_of_mem e he'))
            (fun heq => hnc.1 (heq ▸ he')))

/-- C9: starting from a state where the available and connected pools are
disjoint and partition `all_evs` and no station exceeds its ports,
`simulate_arrivals_departures` (with arbitrary random draws, supplied as
oracles) preserves all three facts, and `connect_ev` on a full station
returns `False` and leaves the station unchanged. -/
theorem ev_population_invariant (choice : ℕ → Option ℕ) (depart : ℕ → Bool)
    (all_evs : List ℕ) (s : EVM.ManagerState) (hall : all_evs.Nodup)
    (hinv : EVM.Invariant all_evs s) :
    EVM.Invariant all_evs (EVM.simulateArrivalsDepartures choice depart s) ∧
      ∀ st : EVM.Station, ∀ e : ℕ, st.num_ports ≤ st.connected_evs.length →
        EVM.connectEv st e = (st, false) := by
  constructor
  · unfold EVM.simulateArrivalsDepartures
    have hnodup : (s.available_evs ++ s.connected_evs).Nodup :=
      hinv.2.1.symm.nodup hall
    have h1 : EVM.Invariant all_evs (s.available_evs.foldl (EVM.arrivalStep choice) s) :=
      EVM.foldl_arrivalStep_inv choice hall s.available_evs s hinv
        hnodup.of_append_left (fun _ h => h)
    have hnodup1 : ((s.available_evs.foldl (EVM.arrivalStep choice) s).available_evs ++
        (s.available_evs.foldl (EVM.arrivalStep choice) s).connected_evs).Nodup :=
      h1.2.1.symm.nodup hall
    exact EVM.foldl_departureStep_inv depart hall _ _ h1
      hnodup1.of_append_right (fun _ h => h)
  · intro st e h
    unfold EVM.connectEv
    rw [if_neg (not_lt.mpr h)]

/-- Witness for `ev_population_invariant`: two EVs, one connected at the
single one-port station; the arriving EV is refused (station full) and no
departure fires. -/
theorem ev_population_invariant_witness :
    EVM.Invariant [1, 2] (EVM.simulateArrivalsDepartures (fun _ => some 0)
      (fun _ => false) ⟨[1], [2], [⟨[2], 1⟩]⟩) :=
  (ev_population_invariant (fun _ => some 0) (fun _ => false) [1, 2]
    ⟨[1], [2], [⟨[2], 1⟩]⟩ (by decide)
    ⟨by intro a ha hb
        rw [List.mem_singleton] at ha hb
        subst ha
        exact absurd hb (by norm_num),
      List.Perm.refl _,
      by intro st hst
         rw [List.mem_singleton] at hst
         subst hst
         exact le_refl 1⟩).1

lemma ev_consumer_get_demand_raises (f : SimTime → ℚ)
    (efficiency voltage power : ℚ) (t : SimTime) :
    Consumer.getDemand (ElectricVehicle.initConsumer f efficiency voltage 0 power) t
      = Except.error PyErr.zeroDivision := by
  simp [Consumer.getDemand, ElectricVehicle.initConsumer, Consumer.init,
    Bind.bind, Except.bind]

lemma station_with_assembled_ev_get_demand_raises (g f : SimTime → ℚ)
    (nports : ℕ) (maxp : ℚ) (t : SimTime) :
    ∃ err, ChargingStation.getDemand
      { ChargingStation.init g nports maxp (19/20) 400 with
        connected_evs := [ElectricVehicle.initConsumer f (9/10) 400 0 0] } t
      = Except.error err := by
  unfold ChargingStation.getDemand
  cases hb : Consumer.getDemand (ChargingStation.init g nports maxp (19/20) 400).base t with
  | error e =>
      exact ⟨e, by simp [hb, Bind.bind, Except.bind, Functor.map, Except.map]⟩
  | ok v =>
      exact ⟨PyErr.zeroDivision,
        by simp [hb, sumConsumerDemands, sumListE, ev_consumer_get_demand_raises,
          Bind.bind, Except.bind, Functor.map, Except.map]⟩

/-- C1 (refuted by the code): the demand phase of `simulate_step` raises as
soon as any charging station holds a connected EV, whatever the demand
functions, the other consumers and the tick time are.  Every
`ElectricVehicle` built by the assembly code has base-consumer
`voltage = 0.0` (the positionally shifted `super().__init__` call), so its
inherited `get_demand` divides by zero. -/
theorem simulate_step_demand_phase_raises (houses : List House)
    (industries : List Industry) (g f : SimTime → ℚ) (nports : ℕ) (maxp : ℚ)
    (t : SimTime) :
    ∃ err, simulateStepDemandPhase houses industries
      [{ ChargingStation.init g nports maxp (19/20) 400 with
          connected_evs := [ElectricVehicle.initConsumer f (9/10) 400 0 0] }] t
      = Except.error err := by
  unfold simulateStepDemandPhase
  cases h1 : sumListE (fun h => House.getDemand h t) houses with
  | error e => exact ⟨e, by simp [h1, Bind.bind, Except.bind]⟩
  | ok v1 =>
      cases h2 : sumListE (fun i => Industry.getDemand i t) industries with
      | error e => exact ⟨e, by simp [h1, h2, Bind.bind, Except.bind]⟩
      | ok v2 =>
          obtain ⟨err, herr⟩ :=
            station_with_assembled_ev_get_demand_raises g f nports maxp t
          exact ⟨err, by simp [h1, h2, sumListE, herr, Bind.bind, Except.bind]⟩

end GridSim
